import Mathlib

/-!
Verification development for the Acma_Insights client (React dashboard with an
AI chat assistant).  The definitions below are a shallow embedding of the
JavaScript source: JavaScript objects with optional fields become structures
with `Option` fields, JavaScript string truthiness (`||`, `if (x)`) is made
explicit through the `jsTruthy`/`jsOr`/`jsOrDefault` helpers (the empty string
and `undefined`/`null` are falsy), thrown exceptions become `Except`/`Option`
results, and the byte stream of the SSE chat endpoint is modelled as a list of
characters.  Theorems about the claims follow after the definitions.
-/

/-! ## JavaScript truthiness helpers

`Option String` models a JavaScript value that is either a string or
`undefined`/`null`.  `jsTruthy o` is `o` filtered by JavaScript truthiness:
`some s` survives only when `s` is non-empty. -/

/-- Truthiness filter: models `x ? x : nothing` for a string-or-undefined. -/
def jsTruthy (o : Option String) : Option String :=
  match o with
  | some s => if s = "" then none else some s
  | none => none

/-- Models the JavaScript expression `a || b` on string-or-undefined values. -/
def jsOr (a b : Option String) : Option String :=
  match jsTruthy a with
  | some s => some s
  | none => b

/-- Models `a || d` where `d` is a plain string literal. -/
def jsOrDefault (a : Option String) (d : String) : String :=
  match jsTruthy a with
  | some s => s
  | none => d

/-! ## Character-level string helpers

JavaScript strings are modelled as `List Char` where character-level
operations (trim, split, startsWith, slice) matter.  `String.trim` of the
standard library is not used because the JS semantics are re-implemented here
in a directly computable form. -/

/-- Models `String.prototype.trim`: removes whitespace from both ends. -/
def trimChars (l : List Char) : List Char :=
  ((l.dropWhile Char.isWhitespace).reverse.dropWhile Char.isWhitespace).reverse

/-- Models `s.trim()` on a whole `String` value. -/
def jsStringTrim (s : String) : String := ⟨trimChars s.data⟩

/-- Models `s.split('\n')`: splits a character list at every newline,
keeping empty segments, exactly like the JavaScript split. -/
def splitLines : List Char → List (List Char)
  | [] => [[]]
  | c :: rest =>
    if c = '\n' then [] :: splitLines rest
    else
      match splitLines rest with
      | l :: ls => (c :: l) :: ls
      | [] => [[c]]

/-- Boolean test that the second list starts with the first one
(models `String.prototype.startsWith`). -/
def listStartsWith : List Char → List Char → Bool
  | [], _ => true
  | _ :: _, [] => false
  | p :: ps, c :: cs => p = c && listStartsWith ps cs

/-! ## `UnifiedSafetyDashboard.handleRemoveInsight` (claim C1)

The insight feedback map is a JavaScript object whose keys are the numeric
insight indices; it is modelled as an association list `List (Nat × String)`
(the JS code skips the keys for which `Number(k)` is `NaN`, so only numeric
keys are represented).  `lookupFB` models property access `m[j]`. -/

/-- Property lookup in the feedback object: first binding of key `j`. -/
def lookupFB (j : Nat) : List (Nat × String) → Option String
  | [] => none
  | (a, v) :: rest => if j = a then some v else lookupFB j rest

/-- The feedback re-indexing loop of `handleRemoveInsight`: every binding with
key below `indexToRemove` is kept, every binding with key above it is moved
down by one, and the binding at `indexToRemove` is dropped.  (The JS loop
assigns into a fresh object; since the key transformation is injective on the
surviving keys, the association-list `filterMap` builds the same map.) -/
def reindexFeedback (indexToRemove : Nat) (prev : List (Nat × String)) :
    List (Nat × String) :=
  prev.filterMap (fun kv =>
    if kv.1 < indexToRemove then some kv
    else if indexToRemove < kv.1 then some (kv.1 - 1, kv.2)
    else none)

/-- Helper for `removeInsightAt`: models
`insights.filter((_, idx) => idx !== indexToRemove)` with `i` the index of the
first remaining element. -/
def removeInsightAtAux (indexToRemove : Nat) : List String → Nat → List String
  | [], _ => []
  | x :: xs, i =>
    if i = indexToRemove then removeInsightAtAux indexToRemove xs (i + 1)
    else x :: removeInsightAtAux indexToRemove xs (i + 1)

/-- The insights-list update of `handleRemoveInsight`. -/
def removeInsightAt (indexToRemove : Nat) (insights : List String) : List String :=
  removeInsightAtAux indexToRemove insights 0

/-- `handleRemoveInsight` performs both local state updates. -/
def handleRemoveInsight (indexToRemove : Nat) (insights : List String)
    (insightFeedback : List (Nat × String)) : List String × List (Nat × String) :=
  (removeInsightAt indexToRemove insights, reindexFeedback indexToRemove insightFeedback)

/-! ## The axios response interceptor and API error normalization (claim C5) -/

/-- JSON body of an HTTP error response; both fields are optional strings. -/
structure ErrBody where
  detail : Option String := none
  error : Option String := none
deriving DecidableEq

/-- The three branches of the axios error interceptor: the server responded
with an error status (carrying an optional JSON body), the request was made
but no response was received, or something else happened. -/
inductive AxiosFailure where
  | response (data : Option ErrBody)
  | request
  | other
deriving DecidableEq

/-- The message of the `Error` thrown by the response interceptor:
`error.response.data?.detail || error.response.data?.error || 'Server error occurred'`
in the first branch, fixed messages in the other two. -/
def interceptorErrorMessage : AxiosFailure → String
  | .response data =>
    jsOrDefault (jsOr (data.bind (·.detail)) (data.bind (·.error))) "Server error occurred"
  | .request => "Network error - please check your connection"
  | .other => "An unexpected error occurred"

/-- A successful axios response; `data` is the parsed JSON body. -/
structure AxiosResponse (α : Type) where
  data : α

/-- The fulfilled branch of the response interceptor returns `response.data`. -/
def interceptorFulfilled {α : Type} (r : AxiosResponse α) : α := r.data

/-! The first api module (`uploadAndProcessFile`, `generateMoreInsights`,
`getSheetInsights`, `getDashboardData`) calls `axios` directly, with no
response interceptor: each method is
`try { const response = await axios...; return response.data } catch (error) { console.error(...); throw error; }`,
so a failed request rethrows the raw `AxiosError` unchanged. -/

/-- Outcome of a raw axios request made without the interceptor: a parsed
body, a response with an HTTP error status (carrying whatever JSON body the
server sent), or no response at all. -/
inductive AxiosOutcome (α : Type) where
  | ok (data : α)
  | httpError (status : Nat) (data : Option ErrBody)
  | networkError
deriving DecidableEq

/-- The `message` of the raw `AxiosError` for a response with an HTTP error
status: axios builds the fixed platform string from the status code, and the
response body's fields do not appear in it. -/
def axiosErrorMessage (status : Nat) : String :=
  "Request failed with status code " ++ toString status

/-- Common shape of the first-module methods: return `response.data` on
success and rethrow the raw axios error otherwise, so the thrown message is
the axios default (`'Request failed with status code N'` on a server error
status, `'Network Error'` when no response arrives), never a string taken
from the response body. -/
def firstModuleMethod {α : Type} (outcome : AxiosOutcome α) : Except String α :=
  match outcome with
  | .ok data => .ok data
  | .httpError status _ => .error (axiosErrorMessage status)
  | .networkError => .error "Network Error"

/-! ## `uploadAndAnalyzeFile` (claim C6) -/

/-- A `fetch` response for the upload call: the `ok` flag and the result of
`response.json()` (`none` when the body is not parseable JSON).  Only the
`detail` field of the parsed body is relevant to the error path; the parsed
body itself is the value returned on success. -/
structure FetchResponse where
  ok : Bool
  jsonBody : Option ErrBody
deriving DecidableEq

/-- Message used when `response.json()` itself rejects on the ok path; the
platform JSON parse error propagates through the outer catch unchanged. -/
def jsonParseFailureMessage : String := "Unexpected end of JSON input"

/-- `uploadAndAnalyzeFile` after the `fetch` resolved: on a non-ok status it
throws an `Error` whose message is `errorData.detail || 'File upload failed'`
(keeping the generic message when the body cannot be parsed); on an ok status
it returns the parsed JSON body. -/
def uploadAndAnalyzeFile (resp : FetchResponse) : Except String ErrBody :=
  if resp.ok then
    match resp.jsonBody with
    | some j => .ok j
    | none => .error jsonParseFailureMessage
  else
    .error (match resp.jsonBody with
      | some j => jsOrDefault j.detail "File upload failed"
      | none => "File upload failed")

/-! ## The ChatBot widget (claims C2 and C8)

`ChatState` is the part of the React component state touched by
`handleSendMessage` and the stream callbacks: the transcript, the busy flags
and the progress-step labels. -/

/-- Role of a chat transcript message. -/
inductive ChatRole where
  | user
  | assistant
deriving DecidableEq

/-- A chat transcript message (the `id`/`timestamp` fields, which are wall
clock values, are not modelled). -/
structure ChatMsg where
  role : ChatRole
  content : String
  isError : Bool := false
  data_context : Option String := none
  chart_data : Option String := none
deriving DecidableEq

/-- The `data` object of a parsed stream event. -/
structure EventData where
  node : Option String := none
  final_answer : Option String := none
  sql_query : Option String := none
  visualization_data : Option String := none
  query_result : Option String := none
deriving DecidableEq

/-- A parsed SSE event as consumed by the ChatBot callback. -/
structure SSEEvent where
  type : Option String := none
  node : Option String := none
  data : Option EventData := none
deriving DecidableEq

/-- The `labelMap` of `handleSendMessage`: user-facing labels for the
processing stages. -/
def nodeLabelMap : String → Option String
  | "intent_classification" => some "Understanding your request"
  | "greeting" => some "Responding"
  | "text_to_sql" => some "Finding the right data"
  | "execute_sql_query" => some "Pulling data"
  | "summarizer" => some "Summarizing insights"
  | "clarification_agent" => some "Need more details"
  | "visualization" => some "Building chart"
  | _ => none

/-- Component state touched by the send/stream handlers. -/
structure ChatState where
  messages : List ChatMsg := []
  isLoading : Bool := false
  isTyping : Bool := false
  progressSteps : List String := []
deriving DecidableEq

/-- The assistant message pushed on a `final` event:
`content` is `data.final_answer || ''` then `|| 'No response message'`,
`data_context` is `data.query_result || null`, and `chart_data` is the
visualization payload (`sanitizeChartData` is the identity on the
string-typed payload of this model, as it is in JS on non-object values). -/
def mkFinalMessage (data : EventData) : ChatMsg :=
  { role := .assistant
    content :=
      match jsTruthy data.final_answer with
      | some s => s
      | none => "No response message"
    isError := false
    data_context := jsTruthy data.query_result
    chart_data := jsTruthy data.visualization_data }

/-- The `onEvent` stream callback of `handleSendMessage`: a `node_update`
event keeps the typing flag on and appends the mapped progress label unless it
repeats the last one; a `final` event appends the assistant message, stops the
busy flags and clears the progress list; anything else is ignored. -/
def applyStreamEvent (st : ChatState) (evt : SSEEvent) : ChatState :=
  if evt.type = some "node_update" then
    let st1 := { st with isTyping := true }
    match jsTruthy (jsOr evt.node (evt.data.bind (·.node))) with
    | some node =>
      let label := (nodeLabelMap node).getD node
      { st1 with progressSteps :=
          if st1.progressSteps.getLast? = some label then st1.progressSteps
          else st1.progressSteps ++ [label] }
    | none => st1
  else if evt.type = some "final" then
    { st with
      messages := st.messages ++ [mkFinalMessage (evt.data.getD {})]
      isTyping := false
      isLoading := false
      progressSteps := [] }
  else
    st

/-- The `onError` stream callback of `handleSendMessage`. -/
def applyStreamError (st : ChatState) : ChatState :=
  { st with
    messages := st.messages ++
      [{ role := .assistant
         content := "Sorry, the stream encountered an error. Please try again."
         isError := true }]
    isTyping := false
    isLoading := false
    progressSteps := [] }

/-- The synchronous part of `handleSendMessage`: the guard
`if (!messageText.trim() || isLoading) return;` followed by appending the user
message and raising the busy flags.  The boolean result records whether a
stream was started (`ApiService.startChatStream` was invoked). -/
def handleSendMessage (st : ChatState) (messageText : String) : ChatState × Bool :=
  if jsStringTrim messageText = "" ∨ st.isLoading = true then (st, false)
  else
    ({ st with
        messages := st.messages ++ [{ role := .user, content := messageText }]
        isLoading := true
        isTyping := true
        progressSteps := [] }, true)

/-- Number of assistant messages in a transcript. -/
def countAssistant (msgs : List ChatMsg) : Nat :=
  msgs.countP (fun m => decide (m.role = ChatRole.assistant))

/-! ## Dashboard render fallbacks (claim C9) -/

/-- The shape of the analytics payload as far as the fallback checks read it:
presence of the `summary` and `timeSeries` fields. -/
structure AnalyticsShape where
  summary : Option Unit := none
  timeSeries : Option Unit := none
deriving DecidableEq

/-- The `/dashboard` response object: `data` is the optional nested analytics
field, and `top` is the response object itself read as an analytics value
(the JS expression `data?.data || data` falls back to the whole object). -/
structure DashResponse where
  data : Option AnalyticsShape := none
  top : AnalyticsShape := {}
deriving DecidableEq

/-- Render outcome of `SupplierDashboardCharts`. -/
inductive SupplierChartsView where
  | loadingAlert
  | charts
deriving DecidableEq

/-- The render decision of `SupplierDashboardCharts`:
`analytics = data?.data || data` and
`isLoading = !analytics || !analytics.summary || !analytics.timeSeries`
selects the info-alert fallback instead of the charts. -/
def supplierDashboardCharts (resp : Option DashResponse) : SupplierChartsView :=
  let analytics : Option AnalyticsShape :=
    match resp with
    | none => none
    | some r =>
      match r.data with
      | some a => some a
      | none => some r.top
  match analytics with
  | none => .loadingAlert
  | some a =>
    if a.summary = none ∨ a.timeSeries = none then .loadingAlert else .charts

/-- Render outcome of the dashboard tab of `FloatingAIAssistant`. -/
inductive AssistantView where
  | loadingSpinner
  | errorAlert (msg : String)
  | noData
  | dashboard
deriving DecidableEq

/-- The render decision of the `FloatingAIAssistant` dashboard: loading
spinner, error alert, then the guard
`if (!dashboardData || !dashboardData.timeSeries)` renders the no-data text. -/
def floatingAssistantDashboard (loading : Bool) (error : Option String)
    (dashboardData : Option AnalyticsShape) : AssistantView :=
  if loading then .loadingSpinner
  else
    match error with
    | some e => .errorAlert e
    | none =>
      match dashboardData with
      | none => .noData
      | some d => if d.timeSeries = none then .noData else .dashboard

/-! ## `sendChatMessage` (claim C10) -/

/-- A JavaScript value passed to `extractTextFromResponse`: a string, an
object carrying optional `text`/`content`/`message` string fields together
with its `JSON.stringify` rendering, or some other non-string non-object
value. -/
inductive JsText where
  | jstr (s : String)
  | jobjWith (text content message : Option String) (stringified : String)
  | jother
deriving DecidableEq

/-- `ApiService.extractTextFromResponse`: a string is returned as is, an
object yields its `text`, `content` or `message` field (checked by key
presence, in that order), any other object is stringified, and everything
else gives `null`. -/
def extractTextFromResponse : Option JsText → Option String
  | some (.jstr s) => some s
  | some (.jobjWith (some t) _ _ _) => some t
  | some (.jobjWith none (some c) _ _) => some c
  | some (.jobjWith none none (some m) _) => some m
  | some (.jobjWith none none none str) => some str
  | some .jother => none
  | none => none

/-- The `query_result` / `visualization_data` field of a `/chat` response:
either a JSON string whose `JSON.parse` outcome is `parsed` (`none` when the
string is malformed and `JSON.parse` throws), or an already-structured truthy
value with opaque payload `v`. -/
inductive QueryResultValue where
  | jstr (parsed : Option String)
  | jval (v : String)
deriving DecidableEq

/-- The parsed JSON body returned by `POST /chat`. -/
structure ChatResponseBody where
  final_answer : Option JsText := none
  sql_query : Option String := none
  query_result : Option QueryResultValue := none
  visualization_data : Option QueryResultValue := none
deriving DecidableEq

/-- An error thrown by the HTTP call: its `message` and its `String(error)`
rendering (`error.toString()`). -/
structure ChatError where
  message : String
  asString : String
deriving DecidableEq

/-- The normalized chatbot response shape built by `sendChatMessage`
(the static `suggested_actions` list is not modelled). -/
structure ChatResult where
  success : Bool
  message : String
  error : Option String := none
  data_context : Option String := none
  chart_data : Option String := none
  sql_query : Option String := none
deriving DecidableEq

/-- `ApiService.sendChatMessage` after the awaited `api.post('/chat')` either
produced a body or threw: on success the body is normalized (string
`query_result`/`visualization_data` fields are JSON-parsed with the parse
failure caught and turned into `null`); on a thrown error the method resolves
with `success: false` and the extracted message. -/
def sendChatMessage (outcome : Except ChatError ChatResponseBody) : ChatResult :=
  match outcome with
  | .ok response =>
    let dataContext : Option String :=
      match response.query_result with
      | some (.jstr parsed) => parsed
      | some (.jval v) => some v
      | none => none
    let chartData : Option String :=
      match response.visualization_data with
      | some (.jstr parsed) => parsed
      | some (.jval v) => some v
      | none => none
    { success := true
      message := jsOrDefault (extractTextFromResponse response.final_answer) "No response available"
      error := none
      data_context := dataContext
      chart_data := chartData
      sql_query := jsTruthy response.sql_query }
  | .error err =>
    { success := false
      message := jsOrDefault (extractTextFromResponse (some (.jstr err.message)))
        "Sorry, I encountered an error processing your request. Please try again."
      error := some (jsOrDefault (extractTextFromResponse (some (.jstr err.message))) err.asString) }

/-! ## The SSE stream reader of `startChatStream` (claims C3, C4, C7)

The response body is modelled as a list of characters; the reader delivers it
in chunks.  `splitFrames` models the inner `while` loop that repeatedly cuts
the buffer at the first `'\n\n'`: it returns the complete frames in order and
the remaining buffer (which contains no separator). -/

/-- Splits a buffer at every double-newline separator, left to right, exactly
as the repeated `buffer.indexOf('\n\n')` / `slice` loop does.  Returns the
list of complete frames and the residual buffer. -/
def splitFrames : List Char → List (List Char) × List Char
  | [] => ([], [])
  | [c] => ([], [c])
  | c1 :: c2 :: rest =>
    if c1 = '\n' ∧ c2 = '\n' then
      ([] :: (splitFrames rest).1, (splitFrames rest).2)
    else
      match splitFrames (c2 :: rest) with
      | (f :: fs, b) => ((c1 :: f) :: fs, b)
      | ([], b) => ([], c1 :: b)

/-- The literal `'data: '` marker of an SSE data line. -/
def dataMarker : List Char := "data: ".toList

/-- Per-frame handling of the stream loop: trim the chunk, skip it when
empty, find the first line starting with `'data: '`, and JSON-parse the rest
of that line.  The abstract `parse` argument stands for `JSON.parse`
(returning `none` models the caught `SyntaxError`, after which the frame is
skipped with only a logged warning). -/
def frameEvent {E : Type} (parse : List Char → Option E) (chunk : List Char) :
    Option E :=
  let sseChunk := trimChars chunk
  if sseChunk = [] then none
  else
    match (splitLines sseChunk).find? (fun l => listStartsWith dataMarker l) with
    | some dataLine => parse (dataLine.drop 6)
    | none => none

/-- Events dispatched for a body that arrives as one single chunk (the
residual buffer left when the stream ends is discarded, as in the source). -/
def processBody {E : Type} (parse : List Char → Option E) (body : List Char) :
    List E :=
  (splitFrames body).1.filterMap (frameEvent parse)

/-- One read iteration of the buffered loop: the chunk is appended to the
carry-over buffer, complete frames are split off, and the rest is buffered
for the next read. -/
def feedStep (acc : List (List Char) × List Char) (c : List Char) :
    List (List Char) × List Char :=
  let r := splitFrames (acc.2 ++ c)
  (acc.1 ++ r.1, r.2)

/-- The buffered read loop over all chunks, starting from an empty buffer.
Returns all complete frames in order plus the final residual buffer. -/
def feedChunks (chunks : List (List Char)) : List (List Char) × List Char :=
  chunks.foldl feedStep ([], [])

/-- The events dispatched over a whole streamed body delivered as `chunks`. -/
def streamEvents {E : Type} (parse : List Char → Option E)
    (chunks : List (List Char)) : List E :=
  (feedChunks chunks).1.filterMap (frameEvent parse)

/-- Whether a character list contains a double-newline separator. -/
def hasSep : List Char → Bool
  | [] => false
  | [_] => false
  | c1 :: c2 :: rest => (c1 = '\n' && c2 = '\n') || hasSep (c2 :: rest)

/-- Outcome of one `reader.read()` iteration: a data chunk, or a rejection
(network failure or an abort signalled mid-read).  The end of the list models
`done`. -/
inductive ReadResult where
  | chunk (data : List Char)
  | fail (err : String)
deriving DecidableEq

/-- Whether a read outcome is a rejection. -/
def ReadResult.isFailure : ReadResult → Bool
  | .fail _ => true
  | .chunk _ => false

/-- The `run` loop of `startChatStream` over a sequence of read outcomes:
chunks are buffered and their complete frames dispatched in order; the first
rejection escapes to the surrounding catch, which invokes the error callback
exactly once and ends the loop (everything after it is never read, and there
is no reconnect).  Returns the dispatched events and the list of error
callback invocations. -/
def startChatStreamLoop {E : Type} (parse : List Char → Option E)
    (buffer : List Char) : List ReadResult → List E × List String
  | [] => ([], [])
  | .chunk d :: rest =>
    let r := splitFrames (buffer ++ d)
    let t := startChatStreamLoop parse r.2 rest
    (r.1.filterMap (frameEvent parse) ++ t.1, t.2)
  | .fail e :: _ => ([], [e])

/-! ## Claim C1: feedback re-indexing on insight removal -/

/-- Pointwise characterization of the re-indexed feedback map: keys below the
removed index read unchanged, keys at or above it read from one position
higher in the original map. -/
theorem lookupFB_reindexFeedback (k : Nat) (prev : List (Nat × String)) :
    ∀ j, lookupFB j (reindexFeedback k prev) =
      if j < k then lookupFB j prev else lookupFB (j + 1) prev := by
  induction prev with
  | nil => intro j; simp [reindexFeedback, lookupFB]
  | cons kv rest ih =>
    intro j
    obtain ⟨a, v⟩ := kv
    rcases Nat.lt_trichotomy a k with hak | hak | hak
    · have hcons : reindexFeedback k ((a, v) :: rest) = (a, v) :: reindexFeedback k rest := by
        simp [reindexFeedback, hak]
      rw [hcons]
      simp only [lookupFB]
      rw [ih j]
      split_ifs <;> first | rfl | omega
    · have hcons : reindexFeedback k ((a, v) :: rest) = reindexFeedback k rest := by
        subst hak
        simp [reindexFeedback]
      rw [hcons, ih j]
      simp only [lookupFB]
      split_ifs <;> first | rfl | omega
    · have h1 : ¬ a < k := by omega
      have hcons : reindexFeedback k ((a, v) :: rest) = (a - 1, v) :: reindexFeedback k rest := by
        simp [reindexFeedback, h1, hak]
      rw [hcons]
      simp only [lookupFB]
      rw [ih j]
      split_ifs <;> first | rfl | omega

/-- The index-filtering loop is `List.eraseIdx` shifted by the start index. -/
theorem removeInsightAtAux_eraseIdx (k : Nat) :
    ∀ (xs : List String) (i : Nat),
      removeInsightAtAux k xs i = if i ≤ k then xs.eraseIdx (k - i) else xs := by
  intro xs
  induction xs with
  | nil => intro i; simp [removeInsightAtAux]
  | cons x xs ih =>
    intro i
    simp only [removeInsightAtAux]
    rw [ih (i + 1)]
    by_cases h1 : i = k
    · subst h1
      have h2 : ¬ (i + 1 ≤ i) := by omega
      rw [if_pos rfl, if_neg h2, if_pos (Nat.le_refl i)]
      have hk : i - i = 0 := by omega
      rw [hk, List.eraseIdx_cons_zero]
    · rw [if_neg h1]
      by_cases h2 : i ≤ k
      · have h3 : i + 1 ≤ k := by omega
        rw [if_pos h3, if_pos h2]
        have hk : k - i = (k - (i + 1)) + 1 := by omega
        rw [hk, List.eraseIdx_cons_succ]
      · have h3 : ¬ (i + 1 ≤ k) := by omega
        rw [if_neg h3, if_neg h2]

/-- C1: for every feedback map and removal index `k`, `handleRemoveInsight`
re-maps the feedback keys so that every key `j > k` is moved to `j - 1` with
its value preserved, every key `j < k` keeps its key and value, and the old
entry at key `k` is removed (every surviving position `j ≥ k` reads from
`j + 1`); the insights list afterwards is the original with the element at
index `k` deleted. -/
theorem handleRemoveInsight_spec (k : Nat) (prev : List (Nat × String)) :
    (∀ j, j < k → lookupFB j (reindexFeedback k prev) = lookupFB j prev)
    ∧ (∀ j, k < j → lookupFB (j - 1) (reindexFeedback k prev) = lookupFB j prev)
    ∧ (∀ j, k ≤ j → lookupFB j (reindexFeedback k prev) = lookupFB (j + 1) prev)
    ∧ (∀ insights : List String, removeInsightAt k insights = insights.eraseIdx k) := by
  refine ⟨?_, ?_, ?_, ?_⟩
  · intro j hj
    rw [lookupFB_reindexFeedback, if_pos hj]
  · intro j hj
    rw [lookupFB_reindexFeedback]
    have h1 : ¬ (j - 1 < k) := by omega
    have h2 : j - 1 + 1 = j := by omega
    rw [if_neg h1, h2]
  · intro j hj
    have h1 : ¬ j < k := by omega
    rw [lookupFB_reindexFeedback, if_neg h1]
  · intro insights
    rw [removeInsightAt, removeInsightAtAux_eraseIdx k insights 0]
    simp

/-- Witness for C1 at a concrete feedback map and insight list. -/
theorem handleRemoveInsight_spec_witness :
    lookupFB 0 (reindexFeedback 1 [(0, "up"), (2, "down")]) = some "up"
    ∧ lookupFB 1 (reindexFeedback 1 [(0, "up"), (2, "down")]) = some "down"
    ∧ removeInsightAt 1 ["a", "b", "c"] = ["a", "c"] := by
  refine ⟨?_, ?_, ?_⟩
  · have h := (handleRemoveInsight_spec 1 [(0, "up"), (2, "down")]).1 0 (by decide)
    rw [h]
    decide
  · have h := (handleRemoveInsight_spec 1 [(0, "up"), (2, "down")]).2.1 2 (by decide)
    have h2 : lookupFB 2 [(0, "up"), (2, "down")] = some "down" := by decide
    rw [h2] at h
    exact h
  · have h := (handleRemoveInsight_spec 1 [(0, "up"), (2, "down")]).2.2.2 ["a", "b", "c"]
    rw [h]
    decide

/-! ## Claim C5: API error normalization across the API client methods -/

/-- A failed first-module request: HTTP status 404 with a JSON body carrying
a `detail` string. -/
def c5FirstModuleOutcome : AxiosOutcome Unit :=
  .httpError 404 (some { detail := some "missing file", error := none })

/-- Counterexample to C5 as stated, at two concrete failed requests.
First, for the interceptor methods: when the error body carries a `detail`
field that is present but empty, the thrown message is not that `detail`
string surfaced verbatim — the JS `||` chain skips the falsy empty string
and surfaces the `error` field.  Second, for the first-module methods
(`uploadAndProcessFile`, `getDashboardData`, ...): on an HTTP error status
with a body carrying a `detail` string, the rethrown raw axios error has the
axios default message, not the body's `detail` string — so the claimed
normalization does not hold for each method of the API client. -/
theorem apiClient_error_normalization_cex :
    interceptorErrorMessage (.response (some { detail := some "", error := some "boom" })) = "boom"
    ∧ interceptorErrorMessage (.response (some { detail := some "", error := some "boom" })) ≠ ""
    ∧ firstModuleMethod c5FirstModuleOutcome = .error "Request failed with status code 404"
    ∧ firstModuleMethod c5FirstModuleOutcome ≠ .error "missing file" := by
  refine ⟨by decide, by decide, ?_, ?_⟩
  · rw [show firstModuleMethod c5FirstModuleOutcome
        = Except.error (axiosErrorMessage 404) from rfl]
    rw [show axiosErrorMessage 404 = "Request failed with status code 404" from by decide]
  · intro h
    rw [show firstModuleMethod c5FirstModuleOutcome
        = Except.error (axiosErrorMessage 404) from rfl] at h
    have hinj := Except.error.inj h
    rw [show axiosErrorMessage 404 = "Request failed with status code 404" from by decide] at hinj
    exact absurd hinj (by decide)

/-- C5 (amended): the API client methods split by transport.  Methods routed
through the shared axios instance throw a normalized error: on a server error
response the message is the body's `detail` string when present and
non-empty, else the body's `error` string when present and non-empty, else
the fixed server-error message; when no response was received the message is
the fixed network-failure message; on success the interceptor returns the
parsed JSON body `response.data`.  The first-module methods do not
normalize: on success they return `response.data`, and on failure they
rethrow the raw axios error unchanged, whose message is the axios default
built from the status code (or the fixed `'Network Error'` string), never a
string taken from the response body. -/
theorem apiClient_error_normalization {α : Type} (r : AxiosResponse α)
    (outcome : AxiosOutcome α) :
    (∀ b : ErrBody, ∀ d : String, b.detail = some d → d ≠ "" →
        interceptorErrorMessage (.response (some b)) = d)
    ∧ (∀ b : ErrBody, ∀ e : String, (b.detail = none ∨ b.detail = some "") →
        b.error = some e → e ≠ "" →
        interceptorErrorMessage (.response (some b)) = e)
    ∧ (∀ b : ErrBody, (b.detail = none ∨ b.detail = some "") →
        (b.error = none ∨ b.error = some "") →
        interceptorErrorMessage (.response (some b)) = "Server error occurred")
    ∧ interceptorErrorMessage (.response none) = "Server error occurred"
    ∧ interceptorErrorMessage .request = "Network error - please check your connection"
    ∧ interceptorErrorMessage .other = "An unexpected error occurred"
    ∧ interceptorFulfilled r = r.data
    ∧ (∀ data : α, outcome = .ok data → firstModuleMethod outcome = .ok data)
    ∧ (∀ status : Nat, ∀ body : Option ErrBody, outcome = .httpError status body →
        firstModuleMethod outcome = .error (axiosErrorMessage status))
    ∧ (outcome = .networkError → firstModuleMethod outcome = .error "Network Error") := by
  refine ⟨?_, ?_, ?_, rfl, rfl, rfl, rfl, ?_, ?_, ?_⟩
  · intro b d hd hne
    simp [interceptorErrorMessage, jsOrDefault, jsOr, jsTruthy, hd, hne]
  · intro b e hd he hne
    rcases hd with hd | hd <;>
      simp [interceptorErrorMessage, jsOrDefault, jsOr, jsTruthy, hd, he, hne]
  · intro b hd he
    rcases hd with hd | hd <;> rcases he with he | he <;>
      simp [interceptorErrorMessage, jsOrDefault, jsOr, jsTruthy, hd, he]
  · intro data hout
    subst hout
    rfl
  · intro status body hout
    subst hout
    rfl
  · intro hout
    subst hout
    rfl

/-- Witness for C5 at a concrete error body, a concrete fulfilled response,
and concrete raw-axios outcomes of a first-module method. -/
theorem apiClient_error_normalization_witness :
    interceptorErrorMessage (.response (some { detail := some "missing file", error := none }))
      = "missing file"
    ∧ interceptorFulfilled (AxiosResponse.mk (42 : Nat)) = 42
    ∧ firstModuleMethod ((.httpError 500 (some { detail := some "missing file", error := none }))
        : AxiosOutcome Nat)
      = .error (axiosErrorMessage 500)
    ∧ firstModuleMethod ((.ok 7) : AxiosOutcome Nat) = .ok 7 := by
  have h := apiClient_error_normalization (AxiosResponse.mk (42 : Nat))
      ((.httpError 500 (some { detail := some "missing file", error := none })) : AxiosOutcome Nat)
  have h2 := apiClient_error_normalization (AxiosResponse.mk (42 : Nat))
      ((.ok 7) : AxiosOutcome Nat)
  exact ⟨h.1 { detail := some "missing file", error := none } "missing file" rfl (by decide),
    h.2.2.2.2.2.2.1,
    h.2.2.2.2.2.2.2.2.1 500 (some { detail := some "missing file", error := none }) rfl,
    h2.2.2.2.2.2.2.2.1 7 rfl⟩

/-! ## Claim C6: upload error surfacing -/

/-- Counterexample to C6 as stated: when the non-ok response body has a
`detail` field that is present but empty, the rejection message is not that
`detail` value; the JS `||` falls back to the generic failure string. -/
theorem uploadAndAnalyzeFile_empty_detail_cex :
    uploadAndAnalyzeFile { ok := false, jsonBody := some { detail := some "" } }
      = .error "File upload failed"
    ∧ uploadAndAnalyzeFile { ok := false, jsonBody := some { detail := some "" } }
      ≠ .error "" := by
  refine ⟨rfl, ?_⟩
  intro h
  rw [show uploadAndAnalyzeFile { ok := false, jsonBody := some { detail := some "" } }
      = .error "File upload failed" from rfl] at h
  exact absurd (Except.error.inj h) (by decide)

/-- C6 (amended): on a non-ok response the rejection message is the body's
`detail` field when it is present and non-empty, and the generic
`'File upload failed'` string otherwise (missing field, empty field, or
unparseable body); on an ok response the parsed JSON body is returned. -/
theorem uploadAndAnalyzeFile_spec (resp : FetchResponse) :
    (∀ j d, resp.ok = false → resp.jsonBody = some j → j.detail = some d → d ≠ "" →
        uploadAndAnalyzeFile resp = .error d)
    ∧ (resp.ok = false → resp.jsonBody = none →
        uploadAndAnalyzeFile resp = .error "File upload failed")
    ∧ (∀ j, resp.ok = false → resp.jsonBody = some j →
        (j.detail = none ∨ j.detail = some "") →
        uploadAndAnalyzeFile resp = .error "File upload failed")
    ∧ (∀ j, resp.ok = true → resp.jsonBody = some j →
        uploadAndAnalyzeFile resp = .ok j) := by
  refine ⟨?_, ?_, ?_, ?_⟩
  · intro j d hok hj hd hne
    simp [uploadAndAnalyzeFile, hok, hj, jsOrDefault, jsTruthy, hd, hne]
  · intro hok hj
    simp [uploadAndAnalyzeFile, hok, hj]
  · intro j hok hj hd
    rcases hd with hd | hd <;>
      simp [uploadAndAnalyzeFile, hok, hj, jsOrDefault, jsTruthy, hd]
  · intro j hok hj
    simp [uploadAndAnalyzeFile, hok, hj]

/-- Witness for C6 at concrete non-ok and ok responses. -/
theorem uploadAndAnalyzeFile_spec_witness :
    uploadAndAnalyzeFile
        { ok := false, jsonBody := some { detail := some "Only Excel files are supported" } }
      = .error "Only Excel files are supported"
    ∧ uploadAndAnalyzeFile { ok := true, jsonBody := some { detail := none } }
      = .ok { detail := none } := by
  constructor
  · exact (uploadAndAnalyzeFile_spec _).1 { detail := some "Only Excel files are supported" }
      "Only Excel files are supported" rfl rfl rfl (by decide)
  · exact (uploadAndAnalyzeFile_spec _).2.2.2 { detail := none } rfl rfl

/-! ## Claim C8: the busy-flag guard of `handleSendMessage` -/

/-- C8: while a message is being processed (`isLoading` set), or when the
message is empty after trimming, `handleSendMessage` returns with the state
unchanged — no user message is appended, no stream is started, and nothing is
queued. -/
theorem handleSendMessage_busy_guard (st : ChatState) (messageText : String)
    (h : st.isLoading = true ∨ jsStringTrim messageText = "") :
    handleSendMessage st messageText = (st, false) := by
  rcases h with h | h
  · rw [handleSendMessage, if_pos (Or.inr h)]
  · rw [handleSendMessage, if_pos (Or.inl h)]

/-- Witness for C8: a send attempt while busy, and a whitespace-only send. -/
theorem handleSendMessage_busy_guard_witness :
    handleSendMessage { isLoading := true } "second question" = ({ isLoading := true }, false)
    ∧ handleSendMessage {} "   " = ({}, false) := by
  constructor
  · exact handleSendMessage_busy_guard { isLoading := true } "second question" (Or.inl rfl)
  · exact handleSendMessage_busy_guard {} "   " (Or.inr (by decide))

/-! ## Claim C2: delivery of the final event -/

/-- State of the widget right after a question was sent: one user message in
the transcript and the busy flags raised. -/
def c2InitState : ChatState :=
  { messages := [{ role := .user, content := "show incidents" }]
    isLoading := true
    isTyping := true }

/-- A concrete `final` stream event. -/
def c2FinalEvent : SSEEvent :=
  { type := some "final"
    data := some { final_answer := some "There were 4 incidents." } }

/-- Counterexample to C2 as stated: the `final` branch of the stream callback
has no idempotency guard, so delivering the same `final` event twice appends
two assistant messages to the transcript, not exactly one. -/
theorem final_event_not_idempotent_cex :
    countAssistant c2InitState.messages = 0
    ∧ countAssistant
        ((applyStreamEvent (applyStreamEvent c2InitState c2FinalEvent) c2FinalEvent).messages)
      = 2 := by
  constructor
  · decide
  · decide

/-- The transcript is extended exactly when the event is `final`. -/
theorem applyStreamEvent_messages (st : ChatState) (evt : SSEEvent) :
    (applyStreamEvent st evt).messages =
      if evt.type = some "final" then st.messages ++ [mkFinalMessage (evt.data.getD {})]
      else st.messages := by
  rw [applyStreamEvent]
  split_ifs with h1 h2 h3
  · rw [h1] at h2
    exact absurd (Option.some.inj h2) (by decide)
  · cases jsTruthy (jsOr evt.node (evt.data.bind (·.node))) <;> rfl
  · rfl
  · rfl

/-- Full effect of one `final` delivery on the widget state. -/
theorem applyStreamEvent_final (st : ChatState) (evt : SSEEvent)
    (h : evt.type = some "final") :
    applyStreamEvent st evt =
      { st with
        messages := st.messages ++ [mkFinalMessage (evt.data.getD {})]
        isTyping := false
        isLoading := false
        progressSteps := [] } := by
  have h1 : ¬ evt.type = some "node_update" := by
    rw [h]
    intro hc
    exact absurd (Option.some.inj hc) (by decide)
  rw [applyStreamEvent, if_neg h1, if_pos h]

/-- Appending the final assistant message raises the assistant count by one. -/
theorem countAssistant_append_one (msgs : List ChatMsg) (d : EventData) :
    countAssistant (msgs ++ [mkFinalMessage d]) = countAssistant msgs + 1 := by
  rw [countAssistant, countAssistant, List.countP_append]
  simp [mkFinalMessage, List.countP_cons]

/-- C2 (amended): each delivered `final` event appends exactly one assistant
message carrying the final answer and clears the progress-step list and the
busy flags — so over any event sequence the number of appended assistant
messages equals the number of delivered `final` events (there is no
idempotency guard: repeated delivery appends repeatedly, and `final` does not
terminate the read loop). -/
theorem final_event_per_delivery (st : ChatState) (evts : List SSEEvent) (e : SSEEvent)
    (hf : e.type = some "final") :
    countAssistant ((evts.foldl applyStreamEvent st).messages)
        = countAssistant st.messages
          + evts.countP (fun ev => decide (ev.type = some "final"))
    ∧ applyStreamEvent st e =
        { st with
          messages := st.messages ++ [mkFinalMessage (e.data.getD {})]
          isTyping := false
          isLoading := false
          progressSteps := [] } := by
  constructor
  · induction evts generalizing st with
    | nil => simp
    | cons ev evts ih =>
      rw [List.foldl_cons, List.countP_cons, ih (applyStreamEvent st ev),
        applyStreamEvent_messages]
      by_cases h : ev.type = some "final"
      · rw [if_pos h, countAssistant_append_one]
        simp [h]
        omega
      · rw [if_neg h]
        simp [h]
  · exact applyStreamEvent_final st e hf

/-- Witness for C2 (amended) at a concrete state and a concrete final event. -/
theorem final_event_per_delivery_witness :
    countAssistant (([c2FinalEvent].foldl applyStreamEvent c2InitState).messages)
        = countAssistant c2InitState.messages
          + [c2FinalEvent].countP (fun ev => decide (ev.type = some "final"))
    ∧ applyStreamEvent c2InitState c2FinalEvent =
        { c2InitState with
          messages := c2InitState.messages ++ [mkFinalMessage (c2FinalEvent.data.getD {})]
          isTyping := false
          isLoading := false
          progressSteps := [] } :=
  final_event_per_delivery c2InitState [c2FinalEvent] c2FinalEvent rfl

/-! ## Claim C9: missing `timeSeries` renders the fallback -/

/-- C9: for every `/dashboard` response in which the `timeSeries` field is
missing — whether the analytics sit in the nested `data` field or the
response object itself is used — `SupplierDashboardCharts` renders its
info-alert fallback instead of the charts, and the `FloatingAIAssistant`
dashboard renders its no-data text; both render functions are total. -/
theorem dashboard_missing_timeSeries_fallback :
    (∀ r : DashResponse, ∀ a : AnalyticsShape, r.data = some a → a.timeSeries = none →
        supplierDashboardCharts (some r) = .loadingAlert)
    ∧ (∀ r : DashResponse, r.data = none → r.top.timeSeries = none →
        supplierDashboardCharts (some r) = .loadingAlert)
    ∧ supplierDashboardCharts none = .loadingAlert
    ∧ (∀ d : AnalyticsShape, d.timeSeries = none →
        floatingAssistantDashboard false none (some d) = .noData)
    ∧ floatingAssistantDashboard false none none = .noData := by
  refine ⟨?_, ?_, rfl, ?_, rfl⟩
  · intro r a hr ha
    simp [supplierDashboardCharts, hr, ha]
  · intro r hr ha
    simp [supplierDashboardCharts, hr, ha]
  · intro d hd
    simp [floatingAssistantDashboard, hd]

/-- Witness for C9 at concrete responses missing `timeSeries`. -/
theorem dashboard_missing_timeSeries_fallback_witness :
    supplierDashboardCharts (some { data := some { summary := some () }, top := {} })
      = .loadingAlert
    ∧ floatingAssistantDashboard false none (some { summary := some () }) = .noData :=
  ⟨dashboard_missing_timeSeries_fallback.1 { data := some { summary := some () }, top := {} }
      { summary := some () } rfl rfl,
    dashboard_missing_timeSeries_fallback.2.2.2.1 { summary := some () } rfl⟩

/-! ## Claim C10: `sendChatMessage` resolution behaviour -/

/-- A `/chat` body whose `query_result` is a malformed JSON string, so the
inner `JSON.parse` throws. -/
def c10ParseFailureBody : ChatResponseBody :=
  { final_answer := some (.jstr "All good")
    query_result := some (.jstr none) }

/-- Counterexample to C10 as stated: a client-side parse failure (a
`query_result` string that is not valid JSON, so `JSON.parse` throws) does
not make the promise resolve with `success: false`; the inner catch nulls the
field and the method still resolves with `success: true`. -/
theorem sendChatMessage_parse_failure_cex :
    (sendChatMessage (.ok c10ParseFailureBody)).success = true
    ∧ (sendChatMessage (.ok c10ParseFailureBody)).data_context = none := by
  constructor
  · rfl
  · rfl

/-- A string-or-defaulted value with a non-empty default is never empty. -/
theorem jsOrDefault_ne_empty (o : Option String) (d : String) (hd : d ≠ "") :
    jsOrDefault o d ≠ "" := by
  rw [jsOrDefault]
  cases o with
  | none => simp [jsTruthy]; exact hd
  | some s =>
    by_cases h : s = ""
    · simp [jsTruthy, h]; exact hd
    · simp [jsTruthy, h]

/-- C10 (amended): `sendChatMessage` always resolves.  An error thrown by the
HTTP request itself resolves to `success: false` with a non-empty message and
an error string; a received body resolves to `success: true`, with parse
failures of the `query_result` / `visualization_data` fields caught
internally and turned into null fields rather than a failed result. -/
theorem sendChatMessage_total_spec (outcome : Except ChatError ChatResponseBody) :
    (∀ err : ChatError, outcome = .error err →
        (sendChatMessage outcome).success = false
        ∧ (sendChatMessage outcome).message ≠ ""
        ∧ (sendChatMessage outcome).error ≠ none)
    ∧ (∀ body : ChatResponseBody, outcome = .ok body →
        (sendChatMessage outcome).success = true
        ∧ (body.query_result = some (.jstr none) →
            (sendChatMessage outcome).data_context = none)
        ∧ (body.visualization_data = some (.jstr none) →
            (sendChatMessage outcome).chart_data = none)) := by
  constructor
  · intro err hout
    subst hout
    refine ⟨rfl, ?_, ?_⟩
    · exact jsOrDefault_ne_empty _ _ (by decide)
    · simp [sendChatMessage]
  · intro body hout
    subst hout
    refine ⟨rfl, ?_, ?_⟩
    · intro hq
      simp [sendChatMessage, hq]
    · intro hv
      simp [sendChatMessage, hv]

/-- Witness for C10 at a concrete thrown error and a concrete response. -/
theorem sendChatMessage_total_spec_witness :
    ((sendChatMessage (.error { message := "boom", asString := "Error: boom" })).success = false
      ∧ (sendChatMessage (.error { message := "boom", asString := "Error: boom" })).message ≠ ""
      ∧ (sendChatMessage (.error { message := "boom", asString := "Error: boom" })).error ≠ none)
    ∧ (sendChatMessage (.ok {})).success = true :=
  ⟨(sendChatMessage_total_spec (.error { message := "boom", asString := "Error: boom" })).1
      { message := "boom", asString := "Error: boom" } rfl,
    ((sendChatMessage_total_spec (.ok {})).2 {} rfl).1⟩

/-! ## Frame splitting lemmas (claims C3, C4, C7) -/

/-- Splitting a buffer that starts with the separator yields an empty frame
and continues on the rest. -/
theorem splitFrames_cons_sep (rest : List Char) :
    splitFrames ('\n' :: '\n' :: rest) = ([] :: (splitFrames rest).1, (splitFrames rest).2) := by
  simp [splitFrames]

/-- Splitting a buffer whose first two characters are not the separator
prepends the first character to the first frame or to the residual buffer. -/
theorem splitFrames_cons_notsep (c1 c2 : Char) (rest : List Char)
    (h : ¬ (c1 = '\n' ∧ c2 = '\n')) :
    splitFrames (c1 :: c2 :: rest)
      = match splitFrames (c2 :: rest) with
        | (f :: fs, b) => ((c1 :: f) :: fs, b)
        | ([], b) => ([], c1 :: b) := by
  simp [splitFrames, h]

/-- A buffer from which no frame was split is returned unchanged. -/
theorem splitFrames_no_frames (l : List Char) :
    (splitFrames l).1 = [] → (splitFrames l).2 = l := by
  induction l using splitFrames.induct with
  | case1 => simp [splitFrames]
  | case2 c => simp [splitFrames]
  | case3 c1 c2 rest h ih => intro hh; simp_all [splitFrames]
  | case4 c1 c2 rest h f fs b heq ih =>
    intro hh
    simp [splitFrames, h, heq] at hh
  | case5 c1 c2 rest h b heq ih =>
    intro hh
    have h1 : (splitFrames (c2 :: rest)).1 = [] := by rw [heq]
    have h2 := ih h1
    rw [heq] at h2
    simp [splitFrames, h, heq]
    exact h2

/-- The residual buffer contains no separator: splitting it again yields no
frames and leaves it unchanged. -/
theorem splitFrames_residual (l : List Char) :
    splitFrames ((splitFrames l).2) = ([], (splitFrames l).2) := by
  induction l using splitFrames.induct with
  | case1 => simp [splitFrames]
  | case2 c => simp [splitFrames]
  | case3 c1 c2 rest h ih =>
    obtain ⟨rfl, rfl⟩ := h
    rw [splitFrames_cons_sep]
    exact ih
  | case4 c1 c2 rest h f fs b heq ih =>
    rw [splitFrames_cons_notsep c1 c2 rest h, heq]
    rw [heq] at ih
    simpa using ih
  | case5 c1 c2 rest h b heq ih =>
    have h1 : (splitFrames (c2 :: rest)).1 = [] := by rw [heq]
    have h2 := splitFrames_no_frames (c2 :: rest) h1
    rw [heq] at h2
    simp at h2
    subst h2
    have hself : splitFrames (c1 :: c2 :: rest) = ([], c1 :: c2 :: rest) := by
      rw [splitFrames_cons_notsep c1 c2 rest h, heq]
    rw [hself, hself]

/-- Splitting a concatenation: the frames of `x` come first, and the residual
of `x` is prepended to `y` and split further.  This is the key invariant
behind buffering partial frames across reads. -/
theorem splitFrames_append (x y : List Char) :
    splitFrames (x ++ y)
      = ((splitFrames x).1 ++ (splitFrames ((splitFrames x).2 ++ y)).1,
         (splitFrames ((splitFrames x).2 ++ y)).2) := by
  induction x using splitFrames.induct with
  | case1 => simp [splitFrames]
  | case2 c => simp [splitFrames]
  | case3 c1 c2 rest h ih =>
    obtain ⟨rfl, rfl⟩ := h
    have hx : ('\n' :: '\n' :: rest) ++ y = '\n' :: '\n' :: (rest ++ y) := by simp
    rw [hx, splitFrames_cons_sep, splitFrames_cons_sep, ih]
    simp
  | case4 c1 c2 rest h f fs b heq ih =>
    have hx : (c1 :: c2 :: rest) ++ y = c1 :: c2 :: (rest ++ y) := by simp
    have hy : c2 :: (rest ++ y) = (c2 :: rest) ++ y := by simp
    rw [hx, splitFrames_cons_notsep c1 c2 (rest ++ y) h, hy, ih, heq]
    rw [splitFrames_cons_notsep c1 c2 rest h, heq]
    simp
  | case5 c1 c2 rest h b heq ih =>
    have h1 : (splitFrames (c2 :: rest)).1 = [] := by rw [heq]
    have h2 := splitFrames_no_frames (c2 :: rest) h1
    rw [heq] at h2
    simp at h2
    subst h2
    have hself : splitFrames (c1 :: c2 :: rest) = ([], c1 :: c2 :: rest) := by
      rw [splitFrames_cons_notsep c1 c2 rest h, heq]
    rw [hself]
    simp

/-- The buffered fold over read chunks computes exactly the single-pass
split of the concatenation, for any starting accumulator whose buffer is
already fully processed. -/
theorem feedChunks_foldl :
    ∀ (chunks : List (List Char)) (p : List (List Char) × List Char),
      splitFrames p.2 = ([], p.2) →
      chunks.foldl feedStep p
        = (p.1 ++ (splitFrames (p.2 ++ chunks.flatten)).1,
           (splitFrames (p.2 ++ chunks.flatten)).2) := by
  intro chunks
  induction chunks with
  | nil =>
    intro p h
    simp [h]
  | cons c cs ih =>
    intro p h
    rw [List.foldl_cons]
    rw [ih (feedStep p c) (splitFrames_residual (p.2 ++ c))]
    rw [show feedStep p c
        = (p.1 ++ (splitFrames (p.2 ++ c)).1, (splitFrames (p.2 ++ c)).2) from rfl]
    rw [List.flatten_cons, ← List.append_assoc, splitFrames_append (p.2 ++ c) cs.flatten]
    simp [List.append_assoc]

/-- C7: frame parsing is invariant under read-chunk boundaries — for every
way of partitioning the streamed body into successive read chunks, the
sequence of events dispatched by the buffered loop equals the sequence
dispatched when the whole body arrives as one single chunk. -/
theorem startChatStream_chunk_invariance {E : Type} (parse : List Char → Option E)
    (chunks : List (List Char)) :
    streamEvents parse chunks = streamEvents parse [chunks.flatten] := by
  rw [streamEvents, streamEvents, feedChunks, feedChunks]
  rw [feedChunks_foldl chunks ([], []) rfl, feedChunks_foldl [chunks.flatten] ([], []) rfl]
  simp

/-! ## Claim C3: malformed frames are skipped, valid frames still dispatched -/

/-- A well-formed raw frame (no internal separator and no trailing newline
that would merge with the frame terminator) is recovered whole by the
splitter, and splitting continues after its terminator. -/
theorem splitFrames_wf_frame : ∀ (f r : List Char), hasSep (f ++ ['\n']) = false →
    splitFrames (f ++ '\n' :: '\n' :: r) = (f :: (splitFrames r).1, (splitFrames r).2) := by
  intro f
  induction f with
  | nil =>
    intro r _
    simp only [List.nil_append]
    rw [splitFrames_cons_sep]
  | cons c f ih =>
    intro r hf
    cases f with
    | nil =>
      have hc : ¬ (c = '\n' ∧ '\n' = '\n') := by
        intro hcc
        obtain ⟨rfl, -⟩ := hcc
        simp [hasSep] at hf
      have hx : (c :: []) ++ '\n' :: '\n' :: r = c :: '\n' :: '\n' :: r := by simp
      rw [hx, splitFrames_cons_notsep c '\n' ('\n' :: r) hc, splitFrames_cons_sep]
    | cons d f' =>
      simp only [List.cons_append, hasSep, Bool.or_eq_false_iff] at hf
      obtain ⟨hand, htail⟩ := hf
      have hcd : ¬ (c = '\n' ∧ d = '\n') := by
        intro hcc
        obtain ⟨rfl, rfl⟩ := hcc
        simp at hand
      have hx : (c :: d :: f') ++ '\n' :: '\n' :: r = c :: d :: (f' ++ '\n' :: '\n' :: r) := by
        simp
      have hy : d :: (f' ++ '\n' :: '\n' :: r) = (d :: f') ++ '\n' :: '\n' :: r := by simp
      rw [hx, splitFrames_cons_notsep c d (f' ++ '\n' :: '\n' :: r) hcd, hy,
        ih r (by simp only [List.cons_append]; exact htail)]

/-- A body made of well-formed terminated frames splits into exactly those
frames with an empty residual buffer. -/
theorem splitFrames_flatMap : ∀ (frames : List (List Char)),
    (∀ f ∈ frames, hasSep (f ++ ['\n']) = false) →
    splitFrames (frames.flatMap (fun g => g ++ ['\n', '\n'])) = (frames, []) := by
  intro frames
  induction frames with
  | nil => intro _; simp [splitFrames]
  | cons f fs ih =>
    intro hw
    have h1 : (f :: fs).flatMap (fun g => g ++ ['\n', '\n'])
        = f ++ '\n' :: '\n' :: fs.flatMap (fun g => g ++ ['\n', '\n']) := by
      simp
    rw [h1, splitFrames_wf_frame f _ (hw f (by simp)),
      ih (fun g hg => hw g (by simp [hg]))]

/-- C3: for every interleaving of well-formed and malformed frames in the
stream body, every frame is recovered by the splitter and handled in order:
frames whose data line parses are dispatched to the event callback, frames
without a `'data: '` line or with malformed JSON contribute nothing (they are
skipped, the loop continues), and the whole loop is a total function — no
exception escapes it. -/
theorem startChatStream_malformed_frames_skipped {E : Type} (parse : List Char → Option E)
    (frames : List (List Char))
    (hw : ∀ f ∈ frames, hasSep (f ++ ['\n']) = false) :
    processBody parse (frames.flatMap (fun g => g ++ ['\n', '\n']))
      = frames.filterMap (frameEvent parse) := by
  rw [processBody, splitFrames_flatMap frames hw]

/-- A concrete stand-in for `JSON.parse` on event payloads: recognizes the
payloads `1` and `2`, fails on everything else. -/
def c3Parse (p : List Char) : Option Nat :=
  if p = "1".toList then some 1 else if p = "2".toList then some 2 else none

/-- Valid frames interleaved with a malformed-JSON frame and a frame without
a data line. -/
def c3Frames : List (List Char) :=
  ["data: 1".toList, "data: oops".toList, "nonsense".toList, "data: 2".toList]

/-- Witness for C3: both valid frames are dispatched in order, the malformed
ones are skipped. -/
theorem startChatStream_malformed_frames_skipped_witness :
    processBody c3Parse (c3Frames.flatMap (fun g => g ++ ['\n', '\n'])) = [1, 2] := by
  rw [startChatStream_malformed_frames_skipped c3Parse c3Frames (by decide)]
  decide

/-! ## Claim C4: one error callback, loop stops, no events after the error -/

/-- Events dispatched before a rejection are exactly those of the clean part
of the read sequence; the rejection itself triggers the catch, which calls
the error callback once and stops the loop, so nothing after the rejection is
processed. -/
theorem startChatStreamLoop_error_cut {E : Type} (parse : List Char → Option E) :
    ∀ (pre : List ReadResult) (buffer : List Char) (post : List ReadResult) (e : String),
      (∀ r ∈ pre, r.isFailure = false) →
      startChatStreamLoop parse buffer (pre ++ .fail e :: post)
        = ((startChatStreamLoop parse buffer pre).1, [e]) := by
  intro pre
  induction pre with
  | nil =>
    intro buffer post e _
    simp [startChatStreamLoop]
  | cons r pre ih =>
    intro buffer post e hpre
    cases r with
    | chunk d =>
      rw [List.cons_append]
      simp only [startChatStreamLoop]
      rw [ih _ post e (fun r hr => hpre r (List.mem_cons_of_mem _ hr))]
    | fail e' =>
      have hcontra := hpre (.fail e') (by simp)
      simp [ReadResult.isFailure] at hcontra

/-- The error-callback list never holds more than one entry. -/
theorem startChatStreamLoop_error_once {E : Type} (parse : List Char → Option E) :
    ∀ (reads : List ReadResult) (buffer : List Char),
      (startChatStreamLoop parse buffer reads).2.length ≤ 1 := by
  intro reads
  induction reads with
  | nil => intro buffer; simp [startChatStreamLoop]
  | cons r rest ih =>
    intro buffer
    cases r with
    | chunk d =>
      simp only [startChatStreamLoop]
      exact ih _
    | fail e' => simp [startChatStreamLoop]

/-- C4: when a stream is aborted mid-flight or hits a transport failure, the
error callback fires exactly once with that failure, the read loop stops,
and no events from reads after the failure are ever dispatched; over any read
sequence at most one error callback fires (no reconnect, no retry). -/
theorem startChatStream_single_error {E : Type} (parse : List Char → Option E)
    (buffer : List Char) (pre post : List ReadResult) (e : String)
    (hpre : ∀ r ∈ pre, r.isFailure = false) :
    startChatStreamLoop parse buffer (pre ++ .fail e :: post)
        = ((startChatStreamLoop parse buffer pre).1, [e])
    ∧ (∀ reads : List ReadResult, (startChatStreamLoop parse buffer reads).2.length ≤ 1) :=
  ⟨startChatStreamLoop_error_cut parse pre buffer post e hpre,
    fun reads => startChatStreamLoop_error_once parse reads buffer⟩

/-- Witness for C4: one clean chunk, then an abort, then a chunk that is
never read; only the first event is dispatched and exactly one error
surfaces. -/
theorem startChatStream_single_error_witness :
    startChatStreamLoop c3Parse []
        ([.chunk ("data: 1\n\n".toList)] ++ .fail "AbortError" :: [.chunk ("data: 2\n\n".toList)])
      = ([1], ["AbortError"])
    ∧ (startChatStreamLoop c3Parse [] [.fail "AbortError"]).2.length ≤ 1 := by
  have h := startChatStream_single_error c3Parse [] [.chunk ("data: 1\n\n".toList)]
      [.chunk ("data: 2\n\n".toList)] "AbortError" (by decide)
  refine ⟨?_, h.2 [.fail "AbortError"]⟩
  rw [h.1]
  decide
